import Mathlib

/-!
# Verification of the CxxSwizzle sample program (src/sample/main.cpp)

A shallow embedding of the sample program of the CxxSwizzle repository:
the texture sampler (`sampler2D::sample`), the render worker's scan loops,
the color quantization, the command-line handling of `main`, and the
producer/consumer frame handshake between the render thread and the display
loop.  Machine floats are modelled as rationals, machine integers as `Int`
or `Nat` with explicit truncation where it matters, and the two threads as
a step relation on an explicit shared state.
-/

namespace CxxSwizzle

/-! ## GLSL elementwise math, as used by the sampler and the render loop

These follow the GLSL definitions used by the vector library the sample
includes: `mod(x, y) = x - y * floor(x / y)`, `clamp`, `step`, `mix`. -/

/-- GLSL `mod(x, y) = x - y * floor(x / y)`. -/
def glslMod (x y : ℚ) : ℚ := x - y * (Int.floor (x / y) : ℤ)

/-- GLSL `clamp(x, lo, hi) = min(max(x, lo), hi)`. -/
def glslClamp (x lo hi : ℚ) : ℚ := min (max x lo) hi

/-- GLSL `step(edge, x)`: 0 if `x < edge`, else 1. -/
def glslStep (edge x : ℚ) : ℚ := if x < edge then 0 else 1

/-- GLSL `mix(a, b, t) = a * (1 - t) + b * t`. -/
def glslMix (a b t : ℚ) : ℚ := a * (1 - t) + b * t

/-- A four-component RGBA color, one lane of the `vec4` of the source. -/
structure Vec4 where
  r : ℚ
  g : ℚ
  b : ℚ
  a : ℚ
deriving DecidableEq, Repr

/-- Componentwise `mix` on `Vec4`. -/
def mix4 (x y : Vec4) (t : ℚ) : Vec4 :=
  ⟨glslMix x.r y.r t, glslMix x.g y.g t, glslMix x.b y.b t, glslMix x.a y.a t⟩

/-- Componentwise `clamp` on `Vec4`. -/
def clamp4 (x : Vec4) (lo hi : ℚ) : Vec4 :=
  ⟨glslClamp x.r lo hi, glslClamp x.g lo hi, glslClamp x.b lo hi, glslClamp x.a lo hi⟩

/-! ## The texture sampler (`sampler2D`, main.cpp lines 597-683) -/

/-- `sampler2D::WrapMode`. -/
inductive WrapMode where
  | Clamp
  | Repeat
  | MirrorRepeat
deriving DecidableEq, Repr

/-- The decoded image held by a `sampler2D`: dimensions, row pitch, bytes
per pixel, the raw byte buffer (a function from byte index to byte value),
and the per-channel masks and shifts of its pixel format, exactly the
fields of `SDL_Surface` that `sampler2D::sample` reads. -/
structure Image where
  w : ℕ
  h : ℕ
  pitch : ℕ
  bytesPerPixel : ℕ
  pixels : ℕ → ℕ
  rmask : ℕ
  rshift : ℕ
  gmask : ℕ
  gshift : ℕ
  bmask : ℕ
  bshift : ℕ
  amask : ℕ
  ashift : ℕ

/-- Pack `bytesPerPixel` consecutive bytes little-endian, as the loop
`pixel |= pixelPtr[i] << (i * 8)` does. -/
def packBytes (pixels : ℕ → ℕ) (base : ℕ) (n : ℕ) : ℕ :=
  (List.range n).foldl (fun acc i => acc ||| (pixels (base + i) <<< (i * 8))) 0

/-- The image-present branch of `sampler2D::sample` (lines 635-681): nearest
pixel index per axis via truncation of `uv * (dim - 1) + 0.5`, byte gather,
channel extraction by mask/shift, alpha defaulting to 255 when the format
has no alpha mask, then `/255` and a final clamp to `[0, 1]`. -/
def fetchPixel (img : Image) (uv : ℚ × ℚ) : Vec4 :=
  let x : ℕ := (Int.floor (uv.1 * ((img.w : ℚ) - 1) + 1/2)).toNat
  let y : ℕ := (Int.floor (uv.2 * ((img.h : ℚ) - 1) + 1/2)).toNat
  let index : ℕ := y * img.pitch + x * img.bytesPerPixel
  let pixel : ℕ := packBytes img.pixels index img.bytesPerPixel
  let r : ℕ := (pixel &&& img.rmask) >>> img.rshift
  let g : ℕ := (pixel &&& img.gmask) >>> img.gshift
  let b : ℕ := (pixel &&& img.bmask) >>> img.bshift
  let a : ℕ := if img.amask = 0 then 255 else (pixel &&& img.amask) >>> img.ashift
  clamp4 ⟨(r : ℚ) / 255, (g : ℚ) / 255, (b : ℚ) / 255, (a : ℚ) / 255⟩ 0 1

/-- The no-image fallback of `sampler2D::sample` (lines 618-632): the
procedural checkerboard `mix(red, green, abs(step(0.5, uv.x) - step(0.5, uv.y)))`. -/
def sampleChecker (uv : ℚ × ℚ) : Vec4 :=
  let sx := glslStep (1/2) uv.1
  let sy := glslStep (1/2) uv.2
  let m2 := |sx - sy|
  mix4 ⟨1, 0, 0, 1⟩ ⟨0, 1, 0, 1⟩ m2

/-- The per-component wrap of `sampler2D::sample` (lines 601-613). -/
def wrapCoord (m : WrapMode) (c : ℚ) : ℚ :=
  match m with
  | .Repeat => glslMod c 1
  | .MirrorRepeat => |glslMod (c - 1) 2 - 1|
  | .Clamp => glslClamp c 0 1

/-- `sampler2D::sample` (lines 597-683): wrap the coordinate per the wrap
mode, flip the vertical axis (`uv.y = 1 - uv.y`), then either the
checkerboard fallback (no image) or the nearest-neighbor fetch. -/
def sample (img : Option Image) (m : WrapMode) (coord : ℚ × ℚ) : Vec4 :=
  let uv : ℚ × ℚ := (wrapCoord m coord.1, wrapCoord m coord.2)
  let uv : ℚ × ℚ := (uv.1, 1 - uv.2)
  match img with
  | none => sampleChecker uv
  | some i => fetchPixel i uv

/-! ## Color quantization (main.cpp lines 296-302)

The render worker converts a shader output channel to a byte with
`auto color = clamp(gl_FragColor, 0, 1); color *= 255 + 0.5f;` followed by
a truncating cast to an unsigned integer.  Note `color *= 255 + 0.5f`
multiplies by `255.5`. -/

/-- The byte the render worker stores for a channel value `c`:
`trunc(clamp(c, 0, 1) * (255 + 0.5))` (truncation of a non-negative value
is `floor`). -/
def storedChannelByte (c : ℚ) : ℤ :=
  Int.floor (glslClamp c 0 1 * (255 + 1/2))

/-- The quantization formula the specification claims:
`trunc(clamp(c, 0, 1) * 255 + 0.5)`.  Stated separately so it can be
compared with `storedChannelByte`, the formula the code computes. -/
def claimedChannelByte (c : ℚ) : ℤ :=
  Int.floor (glslClamp c 0 1 * 255 + 1/2)

/-- The three bytes the inner scatter loop stores for one pixel, in the
order it stores them (`*ptr++ = pr[i]; *ptr++ = pg[i]; *ptr++ = pb[i]`). -/
def storedPixelBytes (c : Vec4) : List ℤ :=
  [storedChannelByte c.r, storedChannelByte c.g, storedChannelByte c.b]

/-! ## The render worker's inner x loop (main.cpp lines 275-286)

```
int limitX = bmp->w - scalar_count;
for (int x = 0; x < bmp->w; x += scalar_count) {
    if (x > limitX) { ptr -= 3 * (x - limitX); x = limitX; }
    ...
}
```
`xLoop` returns the sequence of batch start positions the loop evaluates,
with explicit fuel for the (source-faithful) unstructured loop; with the
fuel `batchStarts` supplies, the fuel never runs out when `N ≥ 1`. -/

/-- One row's batch start positions, starting from position `x`. -/
def xLoop (w N x : ℤ) : ℕ → List ℤ
  | 0 => []
  | fuel + 1 =>
    if x < w then
      let x1 := if x > w - N then w - N else x
      x1 :: xLoop w N (x1 + N) fuel
    else []

/-- The batch start positions of one row of width `w` with lane count `N`. -/
def batchStarts (w N : ℤ) : List ℤ := xLoop w N 0 (w.toNat + 1)

/-- Total overlap between consecutive batches of lane count `N`: the number
of pixels the left shift of a clamped batch recomputes. -/
def overlapSum (N : ℤ) : List ℤ → ℤ
  | a :: b :: rest => max 0 (a + N - b) + overlapSum N (b :: rest)
  | _ => 0

/-! ## The render worker's scanline loop (main.cpp lines 269-273)

```
for (int y = heightStart; !g_cancelDraw && y < heightEnd; y += heightStep) {
    shader.gl_FragCoord.y = static_cast<float>(bmp->h - 1 - y);
    ...
}
```
In the single-threaded configuration `heightStart = 0`, `heightStep = 1`,
`heightEnd = bmp->h`.  `rowsFrom h y` returns, per visited buffer row, the
pair (buffer row index, `gl_FragCoord.y` value passed to the shader). -/

/-- Buffer rows visited from row `y` on, with the fragment y coordinate the
worker assigns for each. -/
def rowsFrom (h y : ℕ) : List (ℕ × ℤ) :=
  if y < h then (y, (h : ℤ) - 1 - y) :: rowsFrom h (y + 1) else []
termination_by h - y

/-- The full frame scan: row 0 through `h - 1`. -/
def frameRows (h : ℕ) : List (ℕ × ℤ) := rowsFrom h 0

/-! ## Command-line handling of `main` (main.cpp lines 352-370) -/

/-- One step of integer extraction: optional sign, then one or more digits.
Returns the value and the remaining characters. -/
def parseInt (cs : List Char) : Option (ℤ × List Char) :=
  let (neg, cs1) := match cs with
    | '-' :: rest => (true, rest)
    | _ => (false, cs)
  let digits := cs1.takeWhile Char.isDigit
  let rest := cs1.dropWhile Char.isDigit
  if digits.isEmpty then none
  else
    let v : ℕ := digits.foldl (fun acc c => acc * 10 + (c.toNat - '0'.toNat)) 0
    some (if neg then -(v : ℤ) else (v : ℤ), rest)

/-- Modelled from the spec: the stream extraction operator of the swizzle
`vector<int, 2>` (in `swizzle/glsl/vector.h`, not under `src/`), which per
the specification reads two integers separated by any non-digit
delimiter. -/
def parseResolution (s : String) : Option (ℤ × ℤ) :=
  match parseInt s.toList with
  | none => none
  | some (x, rest) =>
    match parseInt (rest.dropWhile (fun c => ¬ (c.isDigit ∨ c = '-'))) with
    | none => none
    | some (y, _) => some (x, y)

/-- The resolution handling of `main` (lines 352-370): default `128×128`;
with exactly one argument, parse it, exiting with code 1 on failure; then
exit with code 1 if `width ≤ 0` or `height < 0`.  `Except.error` carries
the exit code, `Except.ok` the initial resolution. -/
def initialResolutionResult (args : List String) : Except ℤ (ℤ × ℤ) :=
  match (match args with
         | [a] => parseResolution a
         | _ => some (128, 128)) with
  | none => .error 1
  | some r => if r.1 ≤ 0 ∨ r.2 < 0 then .error 1 else .ok r

/-- The exit code of `main` (lines 352-370 and 556-567): 1 for a malformed
or invalid resolution argument, otherwise 0 — the whole run is wrapped in
`try`/`catch` blocks that print the error and fall through to `return 0`,
so the outcome of the run (`Except.error` = an exception was thrown and
caught) never changes the exit code. -/
def mainExitCode (args : List String) (run : Except String Unit) : ℤ :=
  match initialResolutionResult args with
  | .error c => c
  | .ok _ =>
    match run with
    | .error _ => 0
    | .ok _ => 0

/-! ## The frame handshake (main.cpp lines 196-208, 314-331, 441-465, 497-537)

Two threads share the flags `g_frameReady`, `g_cancelDraw`, `g_quit`, one
mutex and two condition variables.  Each contiguous mutex-held region of
the source is one atomic transition, except the consumer's consumption
window (lines 499-537), which is kept as an explicit phase so that the
claim about it can be stated; the worker cannot interleave with it anyway,
since every worker transition that touches shared state requires the
mutex.  A condition-variable signal is delivered only if the other thread
is actually waiting on that variable, as with `SDL_CondSignal`. -/

/-- The render worker's control point. -/
inductive WorkerPhase where
  /-- Inside the scan loops (lines 242-312): writing the framebuffer. -/
  | scanning
  /-- Blocked in `SDL_CondWait(m_frameReceivedEvent, ...)` (line 326). -/
  | waitingConsumed
  /-- Returned from `renderThread`. -/
  | finished
deriving DecidableEq, Repr

/-- The display loop's control point. -/
inductive ConsumerPhase where
  /-- Outside the handshake lock: event pump, flip, time accounting. -/
  | idle
  /-- Blocked in `SDL_CondWaitTimeout(m_frameReadyEvent, ..., 33)` (line 509). -/
  | waitingReady
  /-- Holding the mutex inside the consumption window (lines 510-536);
  `wasReady` records `g_frameReady` as observed on acquisition, `forced`
  records `blitNow`. -/
  | inWindow (wasReady forced : Bool)
  /-- Left the `while (!g_quit)` loop. -/
  | exited
deriving DecidableEq, Repr

/-- The shared state of the two threads: control points, the three flags,
pending condition-variable wakeups, and the published shader globals
(`glsl_sandbox::time` and `glsl_sandbox::mouse`, written at line 530-531). -/
structure SysState where
  worker : WorkerPhase
  consumer : ConsumerPhase
  frameReady : Bool
  cancelDraw : Bool
  quitFlag : Bool
  readySig : Bool
  consumedSig : Bool
  pubTime : ℚ
  pubMouse : ℚ × ℚ
deriving DecidableEq, Repr

/-- The mutex is free unless the consumer is inside its window; the worker
holds it only within single (atomic) transitions. -/
def mutexFree (s : SysState) : Bool :=
  match s.consumer with
  | .inWindow _ _ => false
  | _ => true

/-- Is the worker blocked on `m_frameReceivedEvent`?  A consumed signal is
delivered (not lost) exactly in that case. -/
def workerIsWaiting (s : SysState) : Bool :=
  match s.worker with
  | .waitingConsumed => true
  | _ => false

/-- Is the consumer blocked on `m_frameReadyEvent`? -/
def consumerIsWaiting (s : SysState) : Bool :=
  match s.consumer with
  | .waitingReady => true
  | _ => false

/-- The initial state: worker entering its scan, consumer entering its
loop, all flags clear (lines 204-208), globals at their startup values
(`time = 1`, `mouse = (0, 0)`, lines 83-84). -/
def initState : SysState :=
  { worker := .scanning, consumer := .idle, frameReady := false,
    cancelDraw := false, quitFlag := false, readySig := false,
    consumedSig := false, pubTime := 1, pubMouse := (0, 0) }

/-- The end of the consumer's window (lines 514-535), as a pure state
update: if the consumption was unforced or a frame was ready
(`!blitNow || g_frameReady`, line 527), publish the new globals, clear
`g_cancelDraw` and `g_frameReady` and signal `m_frameReceivedEvent`;
otherwise change nothing.  Either way the mutex is released and the
consumer returns to its loop. -/
def windowExit (s : SysState) (forced : Bool) (t : ℚ) (m : ℚ × ℚ) : SysState :=
  if forced = false ∨ s.frameReady = true then
    { s with
      consumer := .idle
      frameReady := false
      cancelDraw := false
      consumedSig := s.consumedSig || workerIsWaiting s
      pubTime := t
      pubMouse := m }
  else
    { s with consumer := .idle }

/-- The whole consumer window body on the state, paired with whether the
framebuffer was blitted to the screen: the blit (line 512) happens
unconditionally once the window is entered (`doFlip = true`, line 511). -/
def consumerWindow (s : SysState) (forced : Bool) (t : ℚ) (m : ℚ × ℚ) :
    SysState × Bool :=
  (windowExit s forced t m, true)

/-- One interleaved step of the two threads. -/
inductive Step : SysState → SysState → Prop where
  /-- Worker reaches the handshake with `g_quit` set (lines 314-318). -/
  | workerHandshakeQuit (s : SysState) :
      s.worker = .scanning → mutexFree s = true → s.quitFlag = true →
      Step s { s with worker := .finished }
  /-- Worker reaches the handshake: sets `g_frameReady`, signals
  `m_frameReadyEvent` and waits on `m_frameReceivedEvent` (lines 320-326),
  all in one mutex-held region. -/
  | workerHandshakeReady (s : SysState) :
      s.worker = .scanning → mutexFree s = true → s.quitFlag = false →
      Step s { s with
               worker := .waitingConsumed
               frameReady := true
               readySig := s.readySig || consumerIsWaiting s }
  /-- Worker wakes from `SDL_CondWait` (lines 326-330): needs the consumed
  signal and the mutex; exits on `g_quit`, else scans the next frame. -/
  | workerWake (s : SysState) :
      s.worker = .waitingConsumed → s.consumedSig = true → mutexFree s = true →
      Step s { s with
               worker := if s.quitFlag then .finished else .scanning
               consumedSig := false }
  /-- Consumer handles a resize event (lines 441-448): sets `g_cancelDraw`
  under the lock (no signal). -/
  | consumerResizeReq (s : SysState) :
      s.consumer = .idle →
      Step s { s with cancelDraw := true }
  /-- Consumer handles quit/escape (lines 449-465): sets `g_quit` and
  `g_cancelDraw` under the lock. -/
  | consumerQuitReq (s : SysState) :
      s.consumer = .idle →
      Step s { s with
               quitFlag := true
               cancelDraw := true }
  /-- Consumer observes `g_quit` in the handshake block (lines 500-507):
  signals `m_frameReceivedEvent` if a frame was ready, then leaves the
  loop. -/
  | consumerQuitExit (s : SysState) :
      s.consumer = .idle → s.quitFlag = true →
      Step s { s with
               consumer := .exited
               consumedSig := s.consumedSig ||
                 (s.frameReady && workerIsWaiting s) }
  /-- Consumer acquires the window immediately (line 509, short-circuit):
  either `blitNow` is set or `g_frameReady` is observed true. -/
  | consumerAcquire (s : SysState) (forced : Bool) :
      s.consumer = .idle → s.quitFlag = false →
      (forced = true ∨ s.frameReady = true) →
      Step s { s with consumer := .inWindow s.frameReady forced }
  /-- Consumer enters the timed wait on `m_frameReadyEvent` (line 509):
  only reached with `blitNow` false and `g_frameReady` false. -/
  | consumerBeginWait (s : SysState) :
      s.consumer = .idle → s.quitFlag = false → s.frameReady = false →
      Step s { s with consumer := .waitingReady }
  /-- The timed wait times out (return value ≠ 0): the consumer skips the
  window and unlocks. -/
  | consumerWaitTimeout (s : SysState) :
      s.consumer = .waitingReady → s.readySig = false →
      Step s { s with consumer := .idle }
  /-- The timed wait is woken by the worker's ready signal (return 0): the
  consumer re-acquires the mutex and enters the window; `blitNow` was
  necessarily false. -/
  | consumerWaitWake (s : SysState) :
      s.consumer = .waitingReady → s.readySig = true →
      Step s { s with
               consumer := .inWindow s.frameReady false
               readySig := false }
  /-- Consumer finishes the window (lines 514-536) and releases the mutex;
  `t`, `m` are the display loop's accumulated time and normalized mouse
  position, published only per `windowExit`. -/
  | consumerRelease (s : SysState) (wasReady forced : Bool) (t : ℚ) (m : ℚ × ℚ) :
      s.consumer = .inWindow wasReady forced →
      Step s (windowExit s forced t m)

/-- States reachable from `initState` by interleaved steps. -/
inductive Reachable : SysState → Prop where
  | init : Reachable initState
  | step {s s1 : SysState} : Reachable s → Step s s1 → Reachable s1

/-- The inductive invariant of the handshake:
1. while `g_frameReady` is set the worker is not scanning (it is parked on
   the consumed wait, or gone);
2. a pending consumed signal targets a worker that is actually waiting;
3. a pending consumed signal coexists with `g_frameReady` only on the quit
   path;
4. inside the window, `g_frameReady` still has the value observed on
   acquisition. -/
def Inv (s : SysState) : Prop :=
  (s.frameReady = true → s.worker ≠ .scanning) ∧
  (s.consumedSig = true → s.worker = .waitingConsumed) ∧
  (s.consumedSig = true → s.frameReady = true → s.quitFlag = true) ∧
  (∀ wr f : Bool, s.consumer = .inWindow wr f → s.frameReady = wr)

theorem inv_init : Inv initState := by
  constructor <;> simp [initState]

theorem workerIsWaiting_eq {s : SysState} :
    workerIsWaiting s = true → s.worker = .waitingConsumed := by
  unfold workerIsWaiting
  cases h : s.worker <;> simp [h]

theorem mutexFree_inWindow {s : SysState} {wr f : Bool}
    (hc : s.consumer = .inWindow wr f) : mutexFree s = false := by
  unfold mutexFree
  rw [hc]

theorem inv_step {s s1 : SysState} (hs : Inv s) (h : Step s s1) : Inv s1 := by
  obtain ⟨h1, h2, h3, h4⟩ := hs
  cases h with
  | workerHandshakeQuit hw hm hq =>
      refine ⟨by simp, ?_, by simpa using h3, by simpa using h4⟩
      intro hc
      exact absurd (hw ▸ h2 hc) (by simp)
  | workerHandshakeReady hw hm hq =>
      have hcs : s.consumedSig = false := by
        cases hcs : s.consumedSig with
        | false => rfl
        | true => exact absurd (hw ▸ h2 hcs) (by simp)
      refine ⟨by simp, by simp [hcs], by simp [hcs], ?_⟩
      intro wr f hc
      simp only [] at hc
      exact absurd hm (by simp [mutexFree_inWindow hc])
  | workerWake hw hc hm =>
      refine ⟨?_, by simp, by simp, by simpa using h4⟩
      intro hfr
      simp at hfr
      cases hq : s.quitFlag with
      | true => simp [hq]
      | false => exact absurd (h3 hc hfr) (by simp [hq])
  | consumerResizeReq hc =>
      exact ⟨h1, h2, h3, by simpa using h4⟩
  | consumerQuitReq hc =>
      exact ⟨h1, h2, by simp, by simpa using h4⟩
  | consumerQuitExit hc hq =>
      refine ⟨h1, ?_, ?_, by simp⟩
      · intro hsig
        simp at hsig
        rcases hsig with hsig | hsig
        · exact h2 hsig
        · exact workerIsWaiting_eq hsig.2
      · intro _ _
        exact hq
  | consumerAcquire forced hc hq hor =>
      refine ⟨h1, h2, h3, ?_⟩
      intro wr f hw
      simp at hw
      simp [hw.1]
  | consumerBeginWait hc hq hfr =>
      exact ⟨h1, h2, h3, by simp⟩
  | consumerWaitTimeout hc hr =>
      exact ⟨h1, h2, h3, by simp⟩
  | consumerWaitWake hc hr =>
      refine ⟨h1, h2, h3, ?_⟩
      intro wr f hw
      simp at hw
      simp [hw.1]
  | consumerRelease wasReady forced t m hc =>
      unfold windowExit
      split
      · refine ⟨by simp, ?_, by simp, by simp⟩
        intro hsig
        simp at hsig
        rcases hsig with hsig | hsig
        · exact h2 hsig
        · exact workerIsWaiting_eq hsig
      · exact ⟨h1, h2, h3, by simp⟩

theorem reachable_inv {s : SysState} (h : Reachable s) : Inv s := by
  induction h with
  | init => exact inv_init
  | step _ hstep ih => exact inv_step ih hstep

/-! ## Supporting lemmas for the x loop and the scanline loop -/

theorem xLoop_stop {w N x : ℤ} (h : ¬ x < w) (fuel : ℕ) :
    xLoop w N x fuel = [] := by
  cases fuel <;> simp [xLoop, h]

theorem xLoop_bounds {w N : ℤ} (hN : 1 ≤ N) (hNw : N ≤ w) :
    ∀ (fuel : ℕ) (x : ℤ), 0 ≤ x →
      ∀ b ∈ xLoop w N x fuel, 0 ≤ b ∧ b + N ≤ w := by
  intro fuel
  induction fuel with
  | zero =>
      intro x hx b hb
      simp [xLoop] at hb
  | succ n ih =>
      intro x hx b hb
      by_cases hxw : x < w
      · by_cases hcl : x > w - N
        · rw [show xLoop w N x (n + 1) = (w - N) :: xLoop w N (w - N + N) n by
            simp [xLoop, hxw, hcl]] at hb
          rcases List.mem_cons.mp hb with hb | hb
          · subst hb
            omega
          · exact ih (w - N + N) (by omega) b hb
        · rw [show xLoop w N x (n + 1) = x :: xLoop w N (x + N) n by
            simp [xLoop, hxw, hcl]] at hb
          rcases List.mem_cons.mp hb with hb | hb
          · subst hb
            omega
          · exact ih (x + N) (by omega) b hb
      · rw [xLoop_stop hxw] at hb
        simp at hb

theorem xLoop_cover {w N : ℤ} (hN : 1 ≤ N) (_hNw : N ≤ w) :
    ∀ (fuel : ℕ) (x p : ℤ), 0 ≤ x → x ≤ p → p < w → (w - x).toNat ≤ fuel →
      ∃ b ∈ xLoop w N x fuel, b ≤ p ∧ p < b + N := by
  intro fuel
  induction fuel with
  | zero =>
      intro x p hx hxp hpw hfuel
      exfalso
      omega
  | succ n ih =>
      intro x p hx hxp hpw hfuel
      have hxw : x < w := lt_of_le_of_lt hxp hpw
      by_cases hcl : x > w - N
      · rw [show xLoop w N x (n + 1) = (w - N) :: xLoop w N (w - N + N) n by
          simp [xLoop, hxw, hcl]]
        exact ⟨w - N, List.mem_cons_self _ _, by omega, by omega⟩
      · rw [show xLoop w N x (n + 1) = x :: xLoop w N (x + N) n by
          simp [xLoop, hxw, hcl]]
        by_cases hpx : p < x + N
        · exact ⟨x, List.mem_cons_self _ _, hxp, hpx⟩
        · obtain ⟨b, hb, hb1, hb2⟩ := ih (x + N) p (by omega) (by omega) hpw (by omega)
          exact ⟨b, List.mem_cons_of_mem _ hb, hb1, hb2⟩

theorem xLoop_overlap {w N : ℤ} (hN : 1 ≤ N) :
    ∀ (fuel : ℕ) (x : ℤ), overlapSum N (xLoop w N x fuel) ≤ N - 1 := by
  intro fuel
  induction fuel with
  | zero =>
      intro x
      simp [xLoop, overlapSum]
      omega
  | succ n ih =>
      intro x
      by_cases hxw : x < w
      · by_cases hcl : x > w - N
        · rw [show xLoop w N x (n + 1) = (w - N) :: xLoop w N (w - N + N) n by
            simp [xLoop, hxw, hcl]]
          rw [xLoop_stop (by omega)]
          simp [overlapSum]
          omega
        · rw [show xLoop w N x (n + 1) = x :: xLoop w N (x + N) n by
            simp [xLoop, hxw, hcl]]
          by_cases hx2 : x + N < w
          · cases n with
            | zero =>
                simp [xLoop, overlapSum]
                omega
            | succ m =>
                by_cases hcl2 : x + N > w - N
                · rw [show xLoop w N (x + N) (m + 1) =
                      (w - N) :: xLoop w N (w - N + N) m by
                    simp [xLoop, hx2, hcl2]]
                  rw [xLoop_stop (by omega)]
                  simp [overlapSum]
                  omega
                · rw [show xLoop w N (x + N) (m + 1) =
                      (x + N) :: xLoop w N (x + N + N) m by
                    simp [xLoop, hx2, hcl2]]
                  have hrec := ih (x + N)
                  rw [show xLoop w N (x + N) (m + 1) =
                      (x + N) :: xLoop w N (x + N + N) m by
                    simp [xLoop, hx2, hcl2]] at hrec
                  calc overlapSum N (x :: (x + N) :: xLoop w N (x + N + N) m)
                      = max 0 (x + N - (x + N)) +
                        overlapSum N ((x + N) :: xLoop w N (x + N + N) m) := by
                        simp [overlapSum]
                    _ ≤ N - 1 := by
                        simp only [sub_self, add_sub_cancel_left]
                        omega
          · rw [xLoop_stop hx2]
            simp [overlapSum]
            omega
      · rw [xLoop_stop hxw]
        simp [overlapSum]
        omega

theorem mem_rowsFrom (h : ℕ) : ∀ (t y : ℕ) (fy : ℤ),
    ((y, fy) ∈ rowsFrom h t ↔ (t ≤ y ∧ y < h ∧ fy = (h : ℤ) - 1 - y)) := by
  suffices H : ∀ (n t y : ℕ) (fy : ℤ), h - t ≤ n →
      ((y, fy) ∈ rowsFrom h t ↔ (t ≤ y ∧ y < h ∧ fy = (h : ℤ) - 1 - y)) by
    intro t y fy
    exact H (h - t) t y fy le_rfl
  intro n
  induction n with
  | zero =>
      intro t y fy hn
      rw [rowsFrom]
      have hth : ¬ t < h := by omega
      simp [hth]
      omega
  | succ m ih =>
      intro t y fy hn
      rw [rowsFrom]
      by_cases hth : t < h
      · simp only [hth, if_pos, List.mem_cons, Prod.mk.injEq]
        rw [ih (t + 1) y fy (by omega)]
        constructor
        · rintro (⟨hy, hfy⟩ | ⟨h1, h2, h3⟩)
          · subst hy
            exact ⟨le_rfl, hth, hfy⟩
          · exact ⟨by omega, h2, h3⟩
        · rintro ⟨hty, hyh, hfy⟩
          by_cases hyt : y = t
          · subst hyt
            exact Or.inl ⟨rfl, hfy⟩
          · exact Or.inr ⟨by omega, hyh, hfy⟩
      · simp [hth]
        omega

theorem wrapRepeat_periodic (c : ℚ) (k : ℤ) :
    wrapCoord .Repeat (c + k) = wrapCoord .Repeat c := by
  unfold wrapCoord glslMod
  rw [div_one, div_one, Int.floor_add_int]
  push_cast
  ring

theorem wrapMirror_reflect (c : ℚ) :
    wrapCoord .MirrorRepeat (2 - c) = wrapCoord .MirrorRepeat c := by
  unfold wrapCoord glslMod
  have h2 : ∀ t : ℚ, t - 2 * ((⌊t / 2⌋ : ℤ) : ℚ) = 2 * Int.fract (t / 2) := by
    intro t
    rw [Int.fract]
    ring
  rw [show (2 - c - 1 : ℚ) = -(c - 1) by ring]
  rw [h2, h2]
  rw [show (-(c - 1) / 2 : ℚ) = -((c - 1) / 2) by ring]
  rcases eq_or_ne (Int.fract ((c - 1) / 2)) 0 with h | h
  · rw [h, Int.fract_neg_eq_zero.mpr h]
  · rw [Int.fract_neg h]
    rw [show (2 * (1 - Int.fract ((c - 1) / 2)) - 1 : ℚ) =
        -(2 * Int.fract ((c - 1) / 2) - 1) by ring]
    rw [abs_neg]

theorem resolution_error_code {args : List String} {c : ℤ}
    (h : initialResolutionResult args = .error c) : c = 1 := by
  unfold initialResolutionResult at h
  split at h
  · simp only [Except.error.injEq] at h
    omega
  · split at h
    · simp only [Except.error.injEq] at h
      omega
    · simp at h

/-! ## The claims -/

/-- Claim C1: in every reachable interleaving of the handshake, the render
worker is never in its framebuffer-writing scan while the consumer is
inside a successfully acquired window (one entered with `g_frameReady`
observed true, directly or after being signaled); moreover the worker
scans only while `g_frameReady` is down, i.e. strictly between the
consumed signal that woke it and its own next ready signal. -/
theorem C1_mutual_exclusion {s : SysState} (hr : Reachable s) :
    (∀ f : Bool, s.consumer = .inWindow true f → s.worker ≠ .scanning) ∧
    (s.worker = .scanning → s.frameReady = false) := by
  obtain ⟨h1, _h2, _h3, h4⟩ := reachable_inv hr
  constructor
  · intro f hc
    exact h1 (h4 true f hc)
  · intro hw
    cases hfr : s.frameReady with
    | false => rfl
    | true => exact absurd hw (h1 hfr)

/-- Witness for C1: a concrete reachable state (worker has signaled a
frame, consumer has acquired the window unforced) in which the worker is
indeed not scanning. -/
theorem C1_mutual_exclusion_witness :
    ({ worker := .waitingConsumed, consumer := .inWindow true false,
       frameReady := true, cancelDraw := false, quitFlag := false,
       readySig := false, consumedSig := false, pubTime := 1,
       pubMouse := (0, 0) } : SysState).worker ≠ .scanning :=
  (C1_mutual_exclusion
    (Reachable.step
      (Reachable.step Reachable.init
        (Step.workerHandshakeReady initState rfl rfl rfl))
      (Step.consumerAcquire _ false rfl rfl (Or.inr rfl)))).1 false rfl

/-- Claim C2 (code bug): the render worker stores
`trunc(clamp(c,0,1) * 255.5)` for a channel, not the claimed
`trunc(clamp(c,0,1) * 255 + 0.5)`: `color *= 255 + 0.5f` multiplies by
`255.5` by operator precedence.  At `c = 1/2` the code stores byte 127
while the claimed rounding formula gives 128; the R,G,B byte order itself
is as claimed. -/
theorem C2_quantization_bug :
    storedChannelByte (1/2) = 127 ∧
    claimedChannelByte (1/2) = 128 ∧
    storedPixelBytes ⟨1/2, 0, 1, 1⟩ = [127, 0, 255] := by
  refine ⟨?_, ?_, ?_⟩ <;>
    norm_num [storedPixelBytes, storedChannelByte, claimedChannelByte, glslClamp]

/-- Claim C3 counterexample: with no image loaded, sampling at
`(0.25, 0.25)` (Repeat wrap, the mode both samplers of the program use)
yields green `(0,1,0,1)`, not red as claimed — the vertical flip sends
`uv = (0.25, 0.25)` to `(0.25, 0.75)`, whose `step` values differ. -/
theorem C3_checker_counterexample :
    sample none .Repeat (1/4, 1/4) = ⟨0, 1, 0, 1⟩ ∧
    (⟨0, 1, 0, 1⟩ : Vec4) ≠ ⟨1, 0, 0, 1⟩ := by
  refine ⟨?_, ?_⟩ <;>
    norm_num [sample, wrapCoord, glslMod, sampleChecker, glslStep, mix4, glslMix]

/-- Claim C3 (amended): with no image loaded, sampling at `(0.25, 0.25)`
and `(0.75, 0.75)` returns green `(0,1,0,1)`, and sampling at
`(0.25, 0.75)` and `(0.75, 0.25)` returns red `(1,0,0,1)` — the claimed
colors with red and green exchanged, forced by the vertical flip
`uv.y := 1 - uv.y` applied before the `step`/`mix` checkerboard. -/
theorem C3_checker_fallback :
    sample none .Repeat (1/4, 1/4) = ⟨0, 1, 0, 1⟩ ∧
    sample none .Repeat (3/4, 3/4) = ⟨0, 1, 0, 1⟩ ∧
    sample none .Repeat (1/4, 3/4) = ⟨1, 0, 0, 1⟩ ∧
    sample none .Repeat (3/4, 1/4) = ⟨1, 0, 0, 1⟩ := by
  refine ⟨?_, ?_, ?_, ?_⟩ <;>
    norm_num [sample, wrapCoord, glslMod, sampleChecker, glslStep, mix4, glslMix]

/-- Claim C4 counterexample: with row width 2 and lane count 4 the claimed
bound `0 ≤ x` fails — the single batch of the row starts at `x = -2`, so
the claim as stated (for every width and lane count) is false. -/
theorem C4_counterexample :
    batchStarts 2 4 = [-2] ∧ ¬ (0 : ℤ) ≤ -2 := by
  refine ⟨?_, ?_⟩ <;> decide

/-- Claim C4 (amended): for every row of width `w ≥ N` (with lane count
`N ≥ 1`), every batch stays within the row (`0 ≤ x` and `x + N ≤ w` after
the last-batch clamp), every pixel of the row is covered by some batch,
and the left shift of the final batch recomputes at most `N - 1` pixels. -/
theorem C4_batches_safe {w N : ℤ} (hN : 1 ≤ N) (hNw : N ≤ w) :
    (∀ b ∈ batchStarts w N, 0 ≤ b ∧ b + N ≤ w) ∧
    (∀ p : ℤ, 0 ≤ p → p < w → ∃ b ∈ batchStarts w N, b ≤ p ∧ p < b + N) ∧
    overlapSum N (batchStarts w N) ≤ N - 1 := by
  refine ⟨?_, ?_, ?_⟩
  · exact fun b hb => xLoop_bounds hN hNw _ 0 le_rfl b hb
  · exact fun p hp hpw => xLoop_cover hN hNw _ 0 p le_rfl hp hpw (by omega)
  · exact xLoop_overlap hN _ 0

/-- Witness for C4: at width 5 and lane count 4 the batch layout is safe
and recomputes at most 3 pixels. -/
theorem C4_batches_safe_witness :
    (∀ b ∈ batchStarts 5 4, 0 ≤ b ∧ b + 4 ≤ 5) ∧
    (∀ p : ℤ, 0 ≤ p → p < 5 → ∃ b ∈ batchStarts 5 4, b ≤ p ∧ p < b + 4) ∧
    overlapSum 4 (batchStarts 5 4) ≤ 4 - 1 :=
  C4_batches_safe (by decide) (by decide)

/-- Claim C5: a resolution argument that fails to parse, or parses to
`width ≤ 0` or `height < 0`, makes `main` exit with code 1; `"64x32"`
gives a 64×32 initial resolution, `"abc"` and `"0x10"` give exit code 1,
and with no argument the resolution defaults to 128×128. -/
theorem C5_cli (a : String) (r : ℤ × ℤ) :
    (parseResolution a = none → initialResolutionResult [a] = .error 1) ∧
    (parseResolution a = some r → r.1 ≤ 0 ∨ r.2 < 0 →
      initialResolutionResult [a] = .error 1) ∧
    (parseResolution a = some r → ¬ (r.1 ≤ 0 ∨ r.2 < 0) →
      initialResolutionResult [a] = .ok r) ∧
    initialResolutionResult ["64x32"] = .ok (64, 32) ∧
    initialResolutionResult ["abc"] = .error 1 ∧
    initialResolutionResult ["0x10"] = .error 1 ∧
    initialResolutionResult [] = .ok (128, 128) := by
  refine ⟨?_, ?_, ?_, ?_, ?_, ?_, ?_⟩
  · intro hp
    simp [initialResolutionResult, hp]
  · intro hp hr
    simp [initialResolutionResult, hp, hr]
  · intro hp hr
    simp [initialResolutionResult, hp, hr]
  · rfl
  · rfl
  · rfl
  · rfl

/-- Witness for C5: the unparsable argument `"abc"` yields exit code 1. -/
theorem C5_cli_witness : initialResolutionResult ["abc"] = .error 1 :=
  (C5_cli "abc" (0, 0)).1 (by decide)

/-- Claim C6: sampling with Repeat wrap is periodic with period 1: adding
any integer `k` to the coordinate leaves the sample unchanged, whatever
image (or fallback) the sampler holds. -/
theorem C6_repeat_periodic (img : Option Image) (coord : ℚ × ℚ) (k : ℤ) :
    sample img .Repeat (coord.1 + k, coord.2 + k) = sample img .Repeat coord := by
  simp only [sample]
  rw [wrapRepeat_periodic, wrapRepeat_periodic]

/-- Claim C7: sampling with MirrorRepeat wrap is symmetric about 1:
`sample(2 - coord) = sample(coord)`, whatever image (or fallback) the
sampler holds, because the triangle-wave wrap satisfies this reflection. -/
theorem C7_mirror_symmetric (img : Option Image) (coord : ℚ × ℚ) :
    sample img .MirrorRepeat (2 - coord.1, 2 - coord.2) =
      sample img .MirrorRepeat coord := by
  simp only [sample]
  rw [wrapMirror_reflect, wrapMirror_reflect]

/-- Claim C8: a forced preview (`blitNow`) while no frame is ready blits
the buffer but leaves the shared state untouched — the published globals,
`g_cancelDraw`, `g_frameReady` and the consumed signal all keep their
previous values — while an unforced consumption, or any consumption with a
frame ready, publishes the globals, clears both flags and signals
`m_frameReceivedEvent`. -/
theorem C8_forced_preview (s : SysState) (f : Bool) (t : ℚ) (m : ℚ × ℚ) :
    ((consumerWindow s f t m).2 = true) ∧
    (f = true → s.frameReady = false →
      (consumerWindow s f t m).1 = { s with consumer := .idle }) ∧
    ((f = false ∨ s.frameReady = true) →
      ((consumerWindow s f t m).1.pubTime = t ∧
       (consumerWindow s f t m).1.pubMouse = m ∧
       (consumerWindow s f t m).1.frameReady = false ∧
       (consumerWindow s f t m).1.cancelDraw = false ∧
       (consumerWindow s f t m).1.consumedSig =
         (s.consumedSig || workerIsWaiting s))) := by
  refine ⟨rfl, ?_, ?_⟩
  · intro hf hfr
    simp [consumerWindow, windowExit, hf, hfr]
  · intro hor
    simp [consumerWindow, windowExit, hor]

/-- Witness for C8: forcing a preview in the initial state (no frame
ready) leaves the state unchanged apart from the consumer phase. -/
theorem C8_forced_preview_witness :
    (consumerWindow initState true 2 (0, 0)).1 =
      { initState with consumer := .idle } :=
  (C8_forced_preview initState true 2 (0, 0)).2.1 rfl rfl

/-- Claim C9: the scanline loop pairs buffer row `y` (counted from the top,
`0 ≤ y < h`) with fragment coordinate `gl_FragCoord.y = h - 1 - y`, giving
the shader a bottom-left origin while rows are written top-down. -/
theorem C9_fragcoord (h y : ℕ) (fy : ℤ) :
    (y, fy) ∈ frameRows h ↔ (y < h ∧ fy = (h : ℤ) - 1 - y) := by
  unfold frameRows
  rw [mem_rowsFrom]
  omega

/-- Witness for C9: in a frame of height 5, buffer row 1 is shaded with
`gl_FragCoord.y = 3`. -/
theorem C9_fragcoord_witness : ((1 : ℕ), (3 : ℤ)) ∈ frameRows 5 :=
  (C9_fragcoord 5 1 3).mpr (by decide)

/-- Claim C10: whatever the run does (including any exception caught by
the top-level handlers), `main` returns 0; exit code 1 occurs exactly for
a malformed or invalid resolution argument, and no other code occurs. -/
theorem C10_exit_codes (args : List String) (run : Except String Unit) :
    (mainExitCode args run = 0 ∨ mainExitCode args run = 1) ∧
    (mainExitCode args run = 1 ↔ initialResolutionResult args = .error 1) ∧
    (∀ run2 : Except String Unit, mainExitCode args run = mainExitCode args run2) := by
  unfold mainExitCode
  cases h : initialResolutionResult args with
  | error c =>
      have hc := resolution_error_code h
      subst hc
      refine ⟨Or.inr rfl, ?_, ?_⟩
      · simp
      · intro run2
        cases run <;> cases run2 <;> rfl
  | ok r =>
      refine ⟨?_, ?_, ?_⟩
      · cases run <;> exact Or.inl rfl
      · cases run <;> simp [h]
      · intro run2
        cases run <;> cases run2 <;> rfl

/-- Witness for C10: a run that throws (is caught at top level) with a
valid default resolution still exits with code 0. -/
theorem C10_exit_codes_witness :
    mainExitCode [] (Except.error "Unable to init SDL") = 0 ∨
    mainExitCode [] (Except.error "Unable to init SDL") = 1 :=
  (C10_exit_codes [] (Except.error "Unable to init SDL")).1

end CxxSwizzle
